import Mathlib

/-!
Verification of the view-generation module (`jenkins_jobs/modules/views.py`):
a shallow embedding of the two XML generators (`List.root_xml` and
`Pipeline.root_xml`) and proofs of the specified properties.
-/

namespace Views

/-- An option value as supplied in the options mapping.  Per the data model,
values are one of: string, boolean, integer, or an ordered sequence of
strings.  -/
inductive Value where
  | str (s : String)
  | bool (b : Bool)
  | int (n : Int)
  | list (xs : List String)
deriving DecidableEq, Repr

/-- Python truthiness of an option value, as used by the
`'true' if x else 'false'` expressions in the source: a string is truthy
iff non-empty, an integer iff non-zero, a sequence iff non-empty. -/
def Value.truthy : Value → Bool
  | .str s => s ≠ ""
  | .bool b => b
  | .int n => n ≠ 0
  | .list xs => ¬ xs.isEmpty

/-- The quote character used by Python `repr` of a string. -/
def quoteChar : String := String.singleton (Char.ofNat 39)

/-- Python `str(v)` applied to an option value (`str(jobname)`,
`str(data.get('no-of-displayed-builds', 1))`,
`str(data.get('refresh-frequency', 3))` in the source).  For a sequence
value Python falls back to `repr`, which we render without escaping (the
caller contract never puts a sequence in these positions). -/
def pyStr : Value → String
  | .str s => s
  | .bool true => "True"
  | .bool false => "False"
  | .int n => toString n
  | .list xs =>
      "[" ++ String.intercalate ", " (xs.map (fun s => quoteChar ++ s ++ quoteChar)) ++ "]"

/-- Python iteration over an option value, as used by the `for` loops of
`List.root_xml`: a sequence yields its entries, a string yields its
one-character substrings, and a boolean or integer raises `TypeError`
(modelled as `none`, which aborts generation). -/
def Value.asIter : Value → Option (List String)
  | .list xs => some xs
  | .str s => some (s.toList.map Char.toString)
  | .bool _ => none
  | .int _ => none

/-- The options mapping: a key → value associative structure with unique
keys (we look up the first binding, matching Python dict semantics). -/
def Options := List (String × Value)

/-- `data.get(key)` / `data.get(key, None)`: `some v` when the key is
bound, `none` otherwise. -/
def get (data : Options) (k : String) : Option Value :=
  (List.find? (fun p => p.1 == k) data).map (fun p => p.2)

/-- An XML element as built by `xml.etree.ElementTree`: a tag, an ordered
attribute list, optional text (holding whatever value the source assigned
to `.text`), and an ordered list of children. -/
inductive Elem where
  | node (tag : String) (attrs : List (String × String)) (text : Option Value)
      (children : List Elem)

/-- The tag name of an element. -/
def Elem.tag : Elem → String
  | .node t _ _ _ => t

/-- The attribute list of an element. -/
def Elem.attrs : Elem → List (String × String)
  | .node _ a _ _ => a

/-- The text of an element (`none` when `.text` was never assigned). -/
def Elem.text : Elem → Option Value
  | .node _ _ x _ => x

/-- The ordered children of an element. -/
def Elem.children : Elem → List Elem
  | .node _ _ _ c => c

/-- `XML.SubElement(parent, tag).text = v`: a childless, attribute-free
element carrying a text value. -/
def textEl (tag : String) (v : Value) : Elem := .node tag [] (some v) []

/-- The `'true' if x else 'false'` pattern: a boolean element rendered from
the truthiness of the looked-up value. -/
def boolEl (tag : String) (v : Value) : Elem :=
  textEl tag (.str (if v.truthy then "true" else "false"))

/-- An optional element: emitted (with text) only when the option was set,
mirroring the `if x is not None:` guards of the source. -/
def optTextEl (tag : String) : Option Value → List Elem
  | none => []
  | some v => [textEl tag v]

/-- `COLUMN_DICT`: the fixed mapping from short column identifiers to
fully qualified XML element names. -/
def COLUMN_DICT : List (String × String) :=
  [ ("status", "hudson.views.StatusColumn"),
    ("weather", "hudson.views.WeatherColumn"),
    ("job", "hudson.views.JobColumn"),
    ("last-success", "hudson.views.LastSuccessColumn"),
    ("last-failure", "hudson.views.LastFailureColumn"),
    ("last-duration", "hudson.views.LastDurationColumn"),
    ("build-button", "hudson.views.BuildButtonColumn"),
    ("last-stable", "hudson.views.LastStableColumn") ]

/-- `column in COLUMN_DICT` / `COLUMN_DICT[column]` combined: the mapped
fully qualified name when the identifier is registered, `none` otherwise. -/
def colLookup (c : String) : Option String :=
  (List.find? (fun p => p.1 == c) COLUMN_DICT).map (fun p => p.2)

/-- The `string` children of the `jobNames` container: absent option means
no children; a bound option is iterated, each entry stringified.  A
non-iterable value raises (aborts generation). -/
def jobNameEls : Option Value → Option (List Elem)
  | none => some []
  | some v => v.asIter.map (fun xs => xs.map (fun j => textEl "string" (.str j)))

/-- The fixed `comparator` child of the `jobNames` container. -/
def comparatorEl : Elem :=
  .node "comparator" [("class", "hudson.util.CaseInsensitiveComparator")] none []

/-- The children of the `hudson.model.ListView` root, in the emission order
of `List.root_xml`, given the resolved `name` value, the `string` children
from `job-name`, and the iterated `columns` identifiers. -/
def listChildren (data : Options) (name : Value) (jobStrings : List Elem)
    (colNames : List String) : List Elem :=
  [textEl "name" name]
  ++ optTextEl "description" (get data "description")
  ++ [ boolEl "filterExecutors" ((get data "filter-executors").getD (.bool false)),
       boolEl "filterQueue" ((get data "filter-queue").getD (.bool false)),
       Elem.node "properties" [("class", "hudson.model.View$PropertyList")] none [],
       Elem.node "jobNames" [] none (comparatorEl :: jobStrings),
       Elem.node "jobFilters" [] none [],
       Elem.node "columns" [] none
         (colNames.filterMap (fun c =>
           (colLookup c).map (fun q => Elem.node q [] none []))) ]
  ++ optTextEl "includeRegex" (get data "regex")
  ++ [boolEl "recurse" ((get data "recurse").getD (.bool false))]
  ++ optTextEl "statusFilter"
       ((get data "status-filter").map
         (fun v => .str (if v.truthy then "true" else "false")))

/-- `List.root_xml(data)`: builds the `hudson.model.ListView` document.
`data['name']` raises `KeyError` when `name` is absent, and the `for`
loops raise `TypeError` on a non-iterable value; either aborts generation
with no document (`none`). -/
def List_root_xml (data : Options) : Option Elem :=
  (get data "name").bind (fun name =>
  (jobNameEls (get data "job-name")).bind (fun jobStrings =>
  (((get data "columns").getD (.list [])).asIter).bind (fun colNames =>
  some (Elem.node "hudson.model.ListView" [] none
    (listChildren data name jobStrings colNames)))))

/-- The children of the pipeline root, in the emission order of
`Pipeline.root_xml`, given the resolved `name` value.  `linktypes` is the
accepted set `['Lightbox', 'New Window']`; any other `link-style` value is
coerced to `'Lightbox'`. -/
def pipelineChildren (data : Options) (name : Value) : List Elem :=
  [textEl "name" name]
  ++ optTextEl "description" (get data "description")
  ++ [ boolEl "filterExecutors" ((get data "filter-executors").getD (.bool false)),
       boolEl "filterQueue" ((get data "filter-queue").getD (.bool false)),
       Elem.node "properties" [("class", "hudson.model.View$PropertyList")] none [],
       Elem.node "gridBuilder"
         [("class",
           "au.com.centrumsystems.hudson.plugin.buildpipeline.DownstreamProjectGridBuilder")]
         none
         [textEl "firstJob" ((get data "first-job").getD (.str ""))],
       textEl "noOfDisplayedBuilds"
         (.str (pyStr ((get data "no-of-displayed-builds").getD (.int 1)))),
       Elem.node "buildViewTitle" [] (get data "title") [],
       textEl "consoleOutputLinkStyle"
         (let ls := (get data "link-style").getD (.str "Lightbox")
          if ls = Value.str "Lightbox" ∨ ls = Value.str "New Window" then ls
          else .str "Lightbox"),
       Elem.node "cssUrl" [] (get data "css-Url") [],
       boolEl "triggerOnlyLatestJob" ((get data "latest-job-only").getD (.bool false)),
       boolEl "alwaysAllowManualTrigger" ((get data "manual-trigger").getD (.bool false)),
       boolEl "showPipelineParameters" ((get data "show-parameters").getD (.bool false)),
       boolEl "showPipelineParametersInHeaders"
         ((get data "parameters-in-headers").getD (.bool false)),
       boolEl "startsWithParameters"
         ((get data "start-with-parameters").getD (.bool false)),
       textEl "refreshFrequency"
         (.str (pyStr ((get data "refresh-frequency").getD (.int 3)))),
       boolEl "showPipelineDefinitionHeader"
         ((get data "definition-header").getD (.bool false)) ]

/-- `Pipeline.root_xml(data)`: builds the
`au.com.centrumsystems.hudson.plugin.buildpipeline.BuildPipelineView`
document.  `data['name']` raises `KeyError` when `name` is absent,
aborting generation (`none`); the rest is a single linear pass. -/
def Pipeline_root_xml (data : Options) : Option Elem :=
  (get data "name").bind (fun name =>
  some (Elem.node "au.com.centrumsystems.hudson.plugin.buildpipeline.BuildPipelineView"
    [("plugin", "build-pipeline-plugin")] none (pipelineChildren data name)))

/-- The children of `e` whose tag is `t`, in document order. -/
def childrenNamed (e : Elem) (t : String) : List Elem :=
  e.children.filter (fun c => c.tag == t)

/-- The first child of `e` whose tag is `t`. -/
def findChild (e : Elem) (t : String) : Option Elem :=
  (childrenNamed e t).head?

/-- The text of the first child of `e` tagged `t`: `none` when no such
child exists, `some txt` when it does (`txt` itself optional). -/
def childText (e : Elem) (t : String) : Option (Option Value) :=
  (findChild e t).map Elem.text

/-- The input mapping of end-to-end example 2. -/
def pipelineExampleData : Options :=
  [("name", .str "pipeline1"), ("first-job", .str "build-A"),
   ("no-of-displayed-builds", .int 5)]

/-- The caller contract of the data model for sequence-valued options
(`job-name`, `columns`): when the option is bound, its value is an
ordered sequence of strings. -/
def seqShaped (o : Option Value) : Prop :=
  ∀ v, o = some v → ∃ xs, v = Value.list xs

/-- A placeholder element (only used to name concrete generated roots). -/
def emptyElem : Elem := .node "" [] none []

/-- A minimal list-view mapping with `status-filter` absent. -/
def sfAbsentData : Options := [("name", .str "v")]

/-- The document generated from `sfAbsentData`. -/
def sfAbsentRoot : Elem := (List_root_xml sfAbsentData).getD emptyElem

/-- A list-view mapping with `status-filter: true`. -/
def sfTrueData : Options := [("name", .str "v"), ("status-filter", .bool true)]

/-- The document generated from `sfTrueData`. -/
def sfTrueRoot : Elem := (List_root_xml sfTrueData).getD emptyElem

/-- A list-view mapping whose `columns` sequence mixes registered and
unknown identifiers. -/
def colsData : Options :=
  [("name", .str "v"), ("columns", .list ["status", "bogus", "job", "weather"])]

/-- The document generated from `colsData`. -/
def colsRoot : Elem := (List_root_xml colsData).getD emptyElem

/-- A list-view mapping with two job names. -/
def jobsData : Options :=
  [("name", .str "v"), ("job-name", .list ["alpha", "beta"])]

/-- The document generated from `jobsData`. -/
def jobsRoot : Elem := (List_root_xml jobsData).getD emptyElem

/-- A pipeline mapping with an unrecognized `link-style` value. -/
def lsData : Options := [("name", .str "p"), ("link-style", .str "Sidebar")]

/-- The document generated from `lsData`. -/
def lsRoot : Elem := (Pipeline_root_xml lsData).getD emptyElem

/-- A pipeline mapping with `link-style: New Window`. -/
def lsNewWindowData : Options := [("name", .str "p"), ("link-style", .str "New Window")]

/-- The document generated from `lsNewWindowData`. -/
def lsNewWindowRoot : Elem := (Pipeline_root_xml lsNewWindowData).getD emptyElem

/-- A pipeline mapping using the documented (but unread) key
`starts-with-parameters`. -/
def swpDocData : Options := [("name", .str "p"), ("starts-with-parameters", .bool true)]

/-- The document generated from `swpDocData`. -/
def swpDocRoot : Elem := (Pipeline_root_xml swpDocData).getD emptyElem

/-- A pipeline mapping using the key the generator actually reads,
`start-with-parameters`. -/
def swpImplData : Options := [("name", .str "p"), ("start-with-parameters", .bool true)]

/-- The document generated from `swpImplData`. -/
def swpImplRoot : Elem := (Pipeline_root_xml swpImplData).getD emptyElem

/-- A mapping with no `name` key. -/
def noNameData : Options := [("description", .str "d")]

/-- A well-shaped mapping with `name`, `job-name` and `columns`. -/
def fullListData : Options :=
  [("name", .str "x"), ("job-name", .list ["a"]), ("columns", .list ["status"])]

/-- `fullListData` with its bindings listed in the opposite order: the
same mapping, a different representation. -/
def fullListDataRev : Options :=
  [("columns", .list ["status"]), ("job-name", .list ["a"]), ("name", .str "x")]

/-- The document generated from `fullListData` by the pipeline generator. -/
def fullPipelineRoot : Elem := (Pipeline_root_xml fullListData).getD emptyElem

/-- Claim C6: on the mapping
`{name: "pipeline1", first-job: "build-A", no-of-displayed-builds: 5}` the
pipeline generator produces a root tagged
`au.com.centrumsystems.hudson.plugin.buildpipeline.BuildPipelineView` with
`plugin` attribute `build-pipeline-plugin`, a `noOfDisplayedBuilds` element
with text `5`, a `gridBuilder` of class
`au.com.centrumsystems.hudson.plugin.buildpipeline.DownstreamProjectGridBuilder`
whose `firstJob` child has text `build-A`, and a `consoleOutputLinkStyle`
element with text `Lightbox`. -/
theorem pipeline_example_end_to_end :
    ∃ root, Pipeline_root_xml pipelineExampleData = some root ∧
      root.tag = "au.com.centrumsystems.hudson.plugin.buildpipeline.BuildPipelineView" ∧
      root.attrs = [("plugin", "build-pipeline-plugin")] ∧
      childText root "noOfDisplayedBuilds" = some (some (.str "5")) ∧
      (∃ gb, findChild root "gridBuilder" = some gb ∧
        gb.attrs =
          [("class",
            "au.com.centrumsystems.hudson.plugin.buildpipeline.DownstreamProjectGridBuilder")] ∧
        childText gb "firstJob" = some (some (.str "build-A"))) ∧
      childText root "consoleOutputLinkStyle" = some (some (.str "Lightbox")) := by
  refine ⟨_, rfl, rfl, rfl, ?_, ?_, ?_⟩ <;> first
    | rfl
    | exact ⟨_, rfl, rfl, rfl⟩

/-- Claim C7: for every options mapping containing only `name`, the list
generator produces a `hudson.model.ListView` document whose
`filterExecutors`, `filterQueue` and `recurse` elements all carry text
`false`, and which has no `statusFilter` element. -/
theorem list_only_name_defaults (v : Value) :
    ∃ root, List_root_xml [("name", v)] = some root ∧
      root.tag = "hudson.model.ListView" ∧
      childText root "filterExecutors" = some (some (.str "false")) ∧
      childText root "filterQueue" = some (some (.str "false")) ∧
      childText root "recurse" = some (some (.str "false")) ∧
      childrenNamed root "statusFilter" = [] := by
  exact ⟨_, rfl, rfl, rfl, rfl, rfl, rfl⟩

theorem filter_optTextEl_of_ne (tag t : String) (o : Option Value)
    (h : (tag == t) = false) :
    List.filter (fun c => c.tag == t) (optTextEl tag o) = [] := by
  cases o <;> simp [optTextEl, textEl, Elem.tag, List.filter_cons, h]

theorem filter_optTextEl_self (tag : String) (o : Option Value) :
    List.filter (fun c => c.tag == tag) (optTextEl tag o) = optTextEl tag o := by
  cases o <;> simp [optTextEl, textEl, Elem.tag, List.filter_cons]

theorem List_root_xml_some (data : Options) (root : Elem)
    (hr : List_root_xml data = some root) :
    ∃ nv js cn, get data "name" = some nv ∧
      jobNameEls (get data "job-name") = some js ∧
      ((get data "columns").getD (.list [])).asIter = some cn ∧
      root = Elem.node "hudson.model.ListView" [] none (listChildren data nv js cn) := by
  unfold List_root_xml at hr
  cases h1 : get data "name" with
  | none => rw [h1] at hr; exact absurd hr (by simp)
  | some nv =>
    rw [h1] at hr
    cases h2 : jobNameEls (get data "job-name") with
    | none => rw [h2] at hr; exact absurd hr (by simp)
    | some js =>
      rw [h2] at hr
      cases h3 : ((get data "columns").getD (.list [])).asIter with
      | none => rw [h3] at hr; exact absurd hr (by simp)
      | some cn =>
        rw [h3] at hr
        simp only [Option.some_bind, Option.some.injEq] at hr
        exact ⟨nv, js, cn, rfl, rfl, rfl, hr.symm⟩

theorem Pipeline_root_xml_some (data : Options) (root : Elem)
    (hr : Pipeline_root_xml data = some root) :
    ∃ nv, get data "name" = some nv ∧
      root = Elem.node
        "au.com.centrumsystems.hudson.plugin.buildpipeline.BuildPipelineView"
        [("plugin", "build-pipeline-plugin")] none (pipelineChildren data nv) := by
  unfold Pipeline_root_xml at hr
  cases h1 : get data "name" with
  | none => rw [h1] at hr; exact absurd hr (by simp)
  | some nv =>
    rw [h1] at hr
    simp only [Option.some_bind, Option.some.injEq] at hr
    exact ⟨nv, rfl, hr.symm⟩

theorem map_tag_colChildren (cols : List String) :
    (cols.filterMap (fun c =>
      (colLookup c).map (fun q => Elem.node q [] none []))).map Elem.tag =
    cols.filterMap colLookup := by
  induction cols with
  | nil => rfl
  | cons a tl ih =>
    cases hcl : colLookup a <;> simp [List.filterMap_cons, hcl, Elem.tag, ih]

theorem colChildren_shape (cols : List String) (e : Elem)
    (he : e ∈ cols.filterMap (fun c =>
      (colLookup c).map (fun q => Elem.node q [] none []))) :
    e.attrs = [] ∧ e.text = none ∧ e.children = [] := by
  rw [List.mem_filterMap] at he
  obtain ⟨a, _, hfa⟩ := he
  cases hcl : colLookup a <;> rw [hcl] at hfa
  · exact absurd hfa (by simp)
  · injection hfa with h
    subst h
    exact ⟨rfl, rfl, rfl⟩

/-- Claim C1: generation is deterministic and stateless: two calls on the
same mapping produce structurally identical documents, and the document is
a pure function of the mapping — any two representations that bind the
same values to the same keys generate identical documents. -/
theorem generation_deterministic (data data2 : Options)
    (h : ∀ k, get data k = get data2 k) :
    List_root_xml data = List_root_xml data ∧
    Pipeline_root_xml data = Pipeline_root_xml data ∧
    List_root_xml data = List_root_xml data2 ∧
    Pipeline_root_xml data = Pipeline_root_xml data2 := by
  refine ⟨rfl, rfl, ?_, ?_⟩ <;>
    simp only [List_root_xml, Pipeline_root_xml, listChildren, pipelineChildren, h]

theorem generation_deterministic_witness :
    List_root_xml fullListData = List_root_xml fullListData ∧
    Pipeline_root_xml fullListData = Pipeline_root_xml fullListData ∧
    List_root_xml fullListData = List_root_xml fullListDataRev ∧
    Pipeline_root_xml fullListData = Pipeline_root_xml fullListDataRev :=
  generation_deterministic fullListData fullListDataRev (fun k => by
    by_cases hn : "name" = k
    · subst hn; rfl
    · by_cases hj : "job-name" = k
      · subst hj; rfl
      · by_cases hc : "columns" = k
        · subst hc; rfl
        · have hn' : ("name" == k) = false := by
            cases h : ("name" == k)
            · rfl
            · exact absurd (eq_of_beq h) hn
          have hj' : ("job-name" == k) = false := by
            cases h : ("job-name" == k)
            · rfl
            · exact absurd (eq_of_beq h) hj
          have hc' : ("columns" == k) = false := by
            cases h : ("columns" == k)
            · rfl
            · exact absurd (eq_of_beq h) hc
          simp [fullListData, fullListDataRev, get, List.find?, hn', hj', hc'])

/-- Claim C2: the `statusFilter` element of the list view is tri-state:
with `status-filter` absent the element is omitted entirely; with the
option set to a boolean, exactly one `statusFilter` element appears,
with text `true` for a true value and `false` for a false value. -/
theorem statusFilter_tristate (data : Options) (root : Elem)
    (hr : List_root_xml data = some root) :
    (get data "status-filter" = none → childrenNamed root "statusFilter" = []) ∧
    (∀ b : Bool, get data "status-filter" = some (.bool b) →
      childrenNamed root "statusFilter" =
        [textEl "statusFilter" (.str (if b then "true" else "false"))]) := by
  obtain ⟨nv, js, cn, h1, h2, h3, rfl⟩ := List_root_xml_some data root hr
  constructor
  · intro hsf
    cases hd : get data "description" <;> cases hrg : get data "regex" <;>
      simp [childrenNamed, Elem.children, listChildren, optTextEl, List.filter_append,
        List.filter_cons, textEl, boolEl, comparatorEl, Elem.tag, hsf, hd, hrg]
  · intro b hsf
    cases hd : get data "description" <;> cases hrg : get data "regex" <;>
      simp [childrenNamed, Elem.children, listChildren, optTextEl, List.filter_append,
        List.filter_cons, textEl, boolEl, comparatorEl, Elem.tag, hsf, hd, hrg,
        Value.truthy]

theorem statusFilter_tristate_witness :
    childrenNamed sfAbsentRoot "statusFilter" = [] ∧
    childrenNamed sfTrueRoot "statusFilter" = [textEl "statusFilter" (.str "true")] :=
  ⟨(statusFilter_tristate sfAbsentData sfAbsentRoot rfl).1 rfl,
   (statusFilter_tristate sfTrueData sfTrueRoot rfl).2 true rfl⟩

/-- Claim C3: the children of the `columns` container are exactly the
registry-mapped elements of the supplied identifiers, in the supplied
relative order; unknown identifiers are dropped silently, and every child
is a bare element (no attributes, no text, no children). -/
theorem columns_registry_filter (data : Options) (root : Elem) (cols : List String)
    (hr : List_root_xml data = some root)
    (hc : get data "columns" = some (.list cols)) :
    ∃ c, findChild root "columns" = some c ∧
      c.children.map Elem.tag = cols.filterMap colLookup ∧
      ∀ e ∈ c.children, e.attrs = [] ∧ e.text = none ∧ e.children = [] := by
  obtain ⟨nv, js, cn, h1, h2, h3, rfl⟩ := List_root_xml_some data root hr
  rw [hc] at h3
  simp only [Option.getD_some, Value.asIter, Option.some.injEq] at h3
  subst h3
  refine ⟨Elem.node "columns" [] none
    (cols.filterMap (fun c => (colLookup c).map (fun q => Elem.node q [] none []))),
    ?_, map_tag_colChildren cols, fun e he => colChildren_shape cols e he⟩
  cases hd : get data "description" <;> cases hrg : get data "regex" <;>
    simp [findChild, childrenNamed, Elem.children, listChildren, optTextEl,
      List.filter_append, List.filter_cons, textEl, boolEl, comparatorEl, Elem.tag,
      hd, hrg]

theorem columns_registry_filter_witness :
    ∃ c, findChild colsRoot "columns" = some c ∧
      c.children.map Elem.tag =
        (["status", "bogus", "job", "weather"] : List String).filterMap colLookup ∧
      ∀ e ∈ c.children, e.attrs = [] ∧ e.text = none ∧ e.children = [] :=
  columns_registry_filter colsData colsRoot ["status", "bogus", "job", "weather"] rfl rfl

/-- Claim C4: the `jobNames` container always starts with the fixed
`comparator` child (class `hudson.util.CaseInsensitiveComparator`), which
therefore precedes any `string` children; the `string` children are one
per supplied `job-name` entry (none when the option is absent), each
holding the entry as text. -/
theorem jobNames_comparator_first (data : Options) (root : Elem)
    (hr : List_root_xml data = some root) :
    ∃ jn, findChild root "jobNames" = some jn ∧
      jn.children.head? = some comparatorEl ∧
      (get data "job-name" = none → jn.children = [comparatorEl]) ∧
      (∀ names : List String, get data "job-name" = some (.list names) →
        jn.children = comparatorEl :: names.map (fun j => textEl "string" (.str j)) ∧
        childrenNamed jn "string" =
          names.map (fun j => textEl "string" (.str j))) := by
  obtain ⟨nv, js, cn, h1, h2, h3, rfl⟩ := List_root_xml_some data root hr
  refine ⟨Elem.node "jobNames" [] none (comparatorEl :: js), ?_, rfl, ?_, ?_⟩
  · cases hd : get data "description" <;> cases hrg : get data "regex" <;>
      simp [findChild, childrenNamed, Elem.children, listChildren, optTextEl,
        List.filter_append, List.filter_cons, textEl, boolEl, comparatorEl, Elem.tag,
        hd, hrg]
  · intro hjn
    rw [hjn] at h2
    simp only [jobNameEls, Option.some.injEq] at h2
    subst h2
    rfl
  · intro names hjn
    rw [hjn] at h2
    simp only [jobNameEls, Value.asIter] at h2
    injection h2 with h2
    subst h2
    refine ⟨rfl, ?_⟩
    have hstr : ∀ ns : List String,
        (ns.map (fun j => textEl "string" (.str j))).filter
          (fun c => c.tag == "string") =
        ns.map (fun j => textEl "string" (.str j)) := by
      intro ns
      induction ns with
      | nil => simp
      | cons a tl ih => simp [List.filter_cons, textEl, Elem.tag, ih]
    simp [childrenNamed, Elem.children, List.filter_cons, comparatorEl, Elem.tag,
      hstr]
    intro a _
    rfl

theorem jobNames_comparator_first_witness :
    ∃ jn, findChild jobsRoot "jobNames" = some jn ∧
      jn.children.head? = some comparatorEl ∧
      (get jobsData "job-name" = none → jn.children = [comparatorEl]) ∧
      (∀ names : List String, get jobsData "job-name" = some (.list names) →
        jn.children = comparatorEl :: names.map (fun j => textEl "string" (.str j)) ∧
        childrenNamed jn "string" =
          names.map (fun j => textEl "string" (.str j))) :=
  jobNames_comparator_first jobsData jobsRoot rfl

/-- Claim C5: the `consoleOutputLinkStyle` text equals the `link-style`
value exactly when that value is `Lightbox` or `New Window`, and is
`Lightbox` for any other value and for an absent option; generation
succeeds regardless, reporting no error. -/
theorem linkStyle_coercion (data : Options) (root : Elem)
    (hr : Pipeline_root_xml data = some root) :
    (get data "link-style" = none →
      childText root "consoleOutputLinkStyle" = some (some (.str "Lightbox"))) ∧
    (∀ s : String, get data "link-style" = some (.str s) →
      s = "Lightbox" ∨ s = "New Window" →
      childText root "consoleOutputLinkStyle" = some (some (.str s))) ∧
    (∀ v : Value, get data "link-style" = some v →
      v ≠ .str "Lightbox" → v ≠ .str "New Window" →
      childText root "consoleOutputLinkStyle" = some (some (.str "Lightbox"))) := by
  obtain ⟨nv, h1, rfl⟩ := Pipeline_root_xml_some data root hr
  have hct :
      childText (Elem.node
        "au.com.centrumsystems.hudson.plugin.buildpipeline.BuildPipelineView"
        [("plugin", "build-pipeline-plugin")] none (pipelineChildren data nv))
        "consoleOutputLinkStyle" =
      some (some (let ls := (get data "link-style").getD (.str "Lightbox")
        if ls = Value.str "Lightbox" ∨ ls = Value.str "New Window" then ls
        else .str "Lightbox")) := by
    cases hd : get data "description" <;>
      simp [childText, findChild, childrenNamed, Elem.children, pipelineChildren,
        optTextEl, List.filter_append, List.filter_cons, textEl, boolEl, Elem.tag,
        Elem.text, hd]
  refine ⟨?_, ?_, ?_⟩
  · intro h
    rw [hct, h]
    rfl
  · intro s h hs
    rw [hct, h]
    have hcond : Value.str s = Value.str "Lightbox" ∨
        Value.str s = Value.str "New Window" := by
      rcases hs with rfl | rfl
      · exact Or.inl rfl
      · exact Or.inr rfl
    simp only [Option.getD_some]
    rw [if_pos hcond]
  · intro v h hA hB
    rw [hct, h]
    have hcond : ¬(v = Value.str "Lightbox" ∨ v = Value.str "New Window") := by
      intro hor
      rcases hor with h' | h'
      · exact hA h'
      · exact hB h'
    simp only [Option.getD_some]
    rw [if_neg hcond]

theorem linkStyle_coercion_witness :
    childText lsNewWindowRoot "consoleOutputLinkStyle" =
      some (some (.str "New Window")) ∧
    childText lsRoot "consoleOutputLinkStyle" = some (some (.str "Lightbox")) :=
  ⟨(linkStyle_coercion lsNewWindowData lsNewWindowRoot rfl).2.1 "New Window" rfl
     (Or.inr rfl),
   (linkStyle_coercion lsData lsRoot rfl).2.2 (.str "Sidebar") rfl
     (by decide) (by decide)⟩

/-- Claim C8: the pipeline generator reads the option key
`start-with-parameters` (not the documented `starts-with-parameters`):
when that key is bound to true the `startsWithParameters` text is `true`,
and when it is absent (in particular when only `starts-with-parameters`
is bound) the text is the default `false`. -/
theorem startWithParameters_key (data : Options) (root : Elem)
    (hr : Pipeline_root_xml data = some root) :
    (get data "start-with-parameters" = some (.bool true) →
      childText root "startsWithParameters" = some (some (.str "true"))) ∧
    (get data "start-with-parameters" = none →
      childText root "startsWithParameters" = some (some (.str "false"))) := by
  obtain ⟨nv, h1, rfl⟩ := Pipeline_root_xml_some data root hr
  constructor <;> intro hswp <;> cases hd : get data "description" <;>
    simp [childText, findChild, childrenNamed, Elem.children, pipelineChildren,
      optTextEl, List.filter_append, List.filter_cons, textEl, boolEl,
      Elem.tag, Elem.text, hswp, hd, Value.truthy]

theorem startWithParameters_key_witness :
    childText swpImplRoot "startsWithParameters" = some (some (.str "true")) ∧
    childText swpDocRoot "startsWithParameters" = some (some (.str "false")) :=
  ⟨(startWithParameters_key swpImplData swpImplRoot rfl).1 rfl,
   (startWithParameters_key swpDocData swpDocRoot rfl).2 rfl⟩

/-- Claim C9: a mapping without `name` makes both generators fail with no
document at all (`KeyError`, modelled as `none` — never a half-populated
tree); a mapping with `name` (and, for the list view, contract-shaped
sequence options) yields a complete document. -/
theorem name_required_fail_closed (data : Options) :
    (get data "name" = none →
      List_root_xml data = none ∧ Pipeline_root_xml data = none) ∧
    (∀ v : Value, get data "name" = some v →
      (∃ r, Pipeline_root_xml data = some r) ∧
      (seqShaped (get data "job-name") → seqShaped (get data "columns") →
        ∃ r, List_root_xml data = some r)) := by
  constructor
  · intro hn
    constructor <;> simp [List_root_xml, Pipeline_root_xml, hn]
  · intro v hn
    constructor
    · exact ⟨Elem.node
        "au.com.centrumsystems.hudson.plugin.buildpipeline.BuildPipelineView"
        [("plugin", "build-pipeline-plugin")] none (pipelineChildren data v),
        by simp [Pipeline_root_xml, hn]⟩
    · intro hj hc
      have hjn : ∃ js, jobNameEls (get data "job-name") = some js := by
        cases hjo : get data "job-name" with
        | none => exact ⟨[], rfl⟩
        | some w =>
          obtain ⟨xs, rfl⟩ := hj w hjo
          exact ⟨xs.map (fun j => textEl "string" (.str j)),
            by simp [jobNameEls, hjo, Value.asIter]⟩
      have hcn : ∃ cn, ((get data "columns").getD (.list [])).asIter = some cn := by
        cases hco : get data "columns" with
        | none => exact ⟨[], rfl⟩
        | some w =>
          obtain ⟨xs, rfl⟩ := hc w hco
          exact ⟨xs, by simp [hco, Value.asIter]⟩
      obtain ⟨js, hjs⟩ := hjn
      obtain ⟨cn, hcns⟩ := hcn
      exact ⟨Elem.node "hudson.model.ListView" [] none (listChildren data v js cn),
        by simp [List_root_xml, hn, hjs, hcns]⟩

theorem name_required_fail_closed_witness :
    (List_root_xml noNameData = none ∧ Pipeline_root_xml noNameData = none) ∧
    ((∃ r, Pipeline_root_xml fullListData = some r) ∧
      (∃ r, List_root_xml fullListData = some r)) :=
  ⟨(name_required_fail_closed noNameData).1 rfl,
   (fun h =>
     ⟨h.1, h.2 (fun v hv => ⟨["a"], (Option.some.inj hv).symm⟩)
       (fun v hv => ⟨["status"], (Option.some.inj hv).symm⟩)⟩)
     ((name_required_fail_closed fullListData).2 (.str "x") rfl)⟩

/-- Claim C10: the pipeline document's `properties` element carries the
class attribute `hudson.model.View$PropertyList` (the same constant used
by the list view) and has no text and no children. -/
theorem pipeline_properties_class (data : Options) (root : Elem)
    (hr : Pipeline_root_xml data = some root) :
    findChild root "properties" =
      some (Elem.node "properties" [("class", "hudson.model.View$PropertyList")]
        none []) := by
  obtain ⟨nv, h1, rfl⟩ := Pipeline_root_xml_some data root hr
  cases hd : get data "description" <;>
    simp [findChild, childrenNamed, Elem.children, pipelineChildren, optTextEl,
      List.filter_append, List.filter_cons, textEl, boolEl, Elem.tag, hd]

theorem pipeline_properties_class_witness :
    findChild fullPipelineRoot "properties" =
      some (Elem.node "properties" [("class", "hudson.model.View$PropertyList")]
        none []) :=
  pipeline_properties_class fullListData fullPipelineRoot rfl

end Views
